import Mathlib

/-!
Verification of the AI prompt-gateway service (`src/routes/ai_service.py`).

The file embeds the five Flask route handlers (`analyze_code`, `generate_tests`,
`security_scan`, `ai_chat`, `optimize_code`) as pure Lean functions over a JSON
value type.  The pieces of the Python runtime the handlers rely on are modelled
explicitly:

* `jsonLoads` models `json.loads` (a fuel-based recursive-descent parser over
  the JSON grammar that CPython's `json` module accepts, including `NaN` /
  `Infinity` literals; numbers are kept as their lexemes, so no floating point
  is involved);
* `truthy` models Python truthiness (`if not code:`);
* `dictGet` / `pyGet` model `dict.get(key, default)`, including the
  `AttributeError` raised when `request.get_json()` returned `None`;
* `reSearchBraces` models `re.search(r"\x7b.*\x7d", text, re.DOTALL).group()`
  via a small backtracking regular-expression engine (`reMatch`) with greedy
  repetition, searched from the leftmost start position;
* the outbound completion call is abstracted as a value of
  `Except String String`: `.ok text` is the provider's completion text
  (`response.choices[0].message.content`), `.error e` is an exception raised
  by the call; the prompt that would be sent does not influence any response
  shaping, so it is not tracked.

A handler takes the parsed request body (`Option Json`, `none` when
`request.get_json()` produced no object) and the provider outcome, and returns
an `HttpResponse` (status code plus JSON body), mirroring the Python
control flow including the `try/except` blocks.
-/

/-- A JSON value as produced by `json.loads`.  Numbers keep their source
lexeme (e.g. `"1"`, `"-2.5e3"`, `"NaN"`): none of the verified properties
depend on numeric evaluation, and this avoids floating-point semantics. -/
inductive Json where
  | null
  | bool (b : Bool)
  | num (lexeme : String)
  | str (s : String)
  | arr (elems : List Json)
  | obj (fields : List (String × Json))
deriving Inhabited

/-- Skip JSON whitespace (space, tab, newline, carriage return), as the
CPython `json` scanner does. -/
def skipWs : List Char → List Char
  | [] => []
  | c :: cs => if c = ' ' ∨ c = '\t' ∨ c = '\n' ∨ c = '\r' then skipWs cs else c :: cs

/-- Value of one hexadecimal digit. -/
def hexVal (c : Char) : Option Nat :=
  if '0' ≤ c ∧ c ≤ '9' then some (c.toNat - 48)
  else if 'a' ≤ c ∧ c ≤ 'f' then some (c.toNat - 87)
  else if 'A' ≤ c ∧ c ≤ 'F' then some (c.toNat - 55)
  else none

/-- Value of a four-digit hexadecimal escape. -/
def hex4 (a b c d : Char) : Option Nat :=
  match hexVal a, hexVal b, hexVal c, hexVal d with
  | some x, some y, some z, some w => some (((x * 16 + y) * 16 + z) * 16 + w)
  | _, _, _, _ => none

/-- Single-character JSON string escapes. -/
def escChar (e : Char) : Option Char :=
  if e = '"' then some '"'
  else if e = '\\' then some '\\'
  else if e = '/' then some '/'
  else if e = 'b' then some '\x08'
  else if e = 'f' then some '\x0c'
  else if e = 'n' then some '\n'
  else if e = 'r' then some '\r'
  else if e = 't' then some '\t'
  else none

/-- Parse the body of a JSON string (the opening quote already consumed),
returning the decoded characters and the remaining input.  Handles the
standard escapes and `\uXXXX` (combining surrogate pairs); rejects raw
control characters, as CPython's strict scanner does. -/
def parseStrBody : Nat → List Char → Option (List Char × List Char)
  | 0, _ => none
  | fuel + 1, cs =>
    match cs with
    | [] => none
    | '"' :: rest => some ([], rest)
    | '\\' :: e :: rest =>
      if e = 'u' then
        match rest with
        | a :: b :: c :: d :: rest2 =>
          match hex4 a b c d with
          | none => none
          | some n =>
            if 0xD800 ≤ n ∧ n ≤ 0xDBFF then
              match rest2 with
              | '\\' :: 'u' :: a2 :: b2 :: c2 :: d2 :: rest3 =>
                match hex4 a2 b2 c2 d2 with
                | some m =>
                  if 0xDC00 ≤ m ∧ m ≤ 0xDFFF then
                    (parseStrBody fuel rest3).map (fun p =>
                      (Char.ofNat (0x10000 + (n - 0xD800) * 0x400 + (m - 0xDC00)) :: p.1, p.2))
                  else
                    (parseStrBody fuel rest2).map (fun p => (Char.ofNat n :: p.1, p.2))
                | none => (parseStrBody fuel rest2).map (fun p => (Char.ofNat n :: p.1, p.2))
              | _ => (parseStrBody fuel rest2).map (fun p => (Char.ofNat n :: p.1, p.2))
            else
              (parseStrBody fuel rest2).map (fun p => (Char.ofNat n :: p.1, p.2))
        | _ => none
      else
        match escChar e with
        | some c => (parseStrBody fuel rest).map (fun p => (c :: p.1, p.2))
        | none => none
    | c :: rest =>
      if c.toNat < 0x20 then none
      else (parseStrBody fuel rest).map (fun p => (c :: p.1, p.2))

/-- Consume the optional fraction and exponent of a JSON number (the integer
part already taken), per the number grammar used by `json.loads`:
`(\.\d+)?([eE][-+]?\d+)?`.  Returns the full lexeme and the rest. -/
def numFracExp (intPart : List Char) (cs : List Char) : List Char × List Char :=
  let fr : List Char × List Char :=
    match cs with
    | '.' :: d :: t =>
      if d.isDigit then
        let p := (d :: t).span (fun ch => ch.isDigit)
        ('.' :: p.1, p.2)
      else ([], cs)
    | _ => ([], cs)
  let cs1 := fr.2
  let ex : List Char × List Char :=
    match cs1 with
    | e :: t =>
      if e = 'e' ∨ e = 'E' then
        match t with
        | s :: t2 =>
          if s = '+' ∨ s = '-' then
            match t2 with
            | d :: _ =>
              if d.isDigit then
                let p := t2.span (fun ch => ch.isDigit)
                (e :: s :: p.1, p.2)
              else ([], cs1)
            | [] => ([], cs1)
          else if s.isDigit then
            let p := t.span (fun ch => ch.isDigit)
            (e :: p.1, p.2)
          else ([], cs1)
        | [] => ([], cs1)
      else ([], cs1)
    | [] => ([], cs1)
  (intPart ++ fr.1 ++ ex.1, ex.2)

/-- Parse a JSON number literal (maximal match of
`-?(?:0|[1-9]\d*)(\.\d+)?([eE][-+]?\d+)?`), returning its lexeme. -/
def parseNumLex (cs : List Char) : Option (List Char × List Char) :=
  let sp : List Char × List Char :=
    match cs with
    | '-' :: t => (['-'], t)
    | _ => ([], cs)
  match sp.2 with
  | '0' :: rest =>
    let r := numFracExp ['0'] rest
    some (sp.1 ++ r.1, r.2)
  | c :: rest =>
    if c.isDigit then
      let p := rest.span (fun ch => ch.isDigit)
      let r := numFracExp (c :: p.1) p.2
      some (sp.1 ++ r.1, r.2)
    else none
  | [] => none

mutual

/-- Parse one JSON value, mirroring the CPython scanner: keyword literals
(`null`, `true`, `false`, `NaN`, `Infinity`, `-Infinity`), strings, numbers,
arrays and objects, with interspersed whitespace. -/
def parseVal : Nat → List Char → Option (Json × List Char)
  | 0, _ => none
  | fuel + 1, cs0 =>
    match skipWs cs0 with
    | 'n' :: 'u' :: 'l' :: 'l' :: rest => some (.null, rest)
    | 't' :: 'r' :: 'u' :: 'e' :: rest => some (.bool true, rest)
    | 'f' :: 'a' :: 'l' :: 's' :: 'e' :: rest => some (.bool false, rest)
    | 'N' :: 'a' :: 'N' :: rest => some (.num "NaN", rest)
    | 'I' :: 'n' :: 'f' :: 'i' :: 'n' :: 'i' :: 't' :: 'y' :: rest =>
      some (.num "Infinity", rest)
    | '-' :: 'I' :: 'n' :: 'f' :: 'i' :: 'n' :: 'i' :: 't' :: 'y' :: rest =>
      some (.num "-Infinity", rest)
    | '"' :: rest =>
      (parseStrBody (rest.length + 1) rest).map (fun p => (.str (String.mk p.1), p.2))
    | '[' :: rest =>
      (match skipWs rest with
       | ']' :: rest2 => some (.arr [], rest2)
       | cs2 => parseArrItems fuel cs2 [])
    | '{' :: rest =>
      (match skipWs rest with
       | '}' :: rest2 => some (.obj [], rest2)
       | cs2 => parseObjItems fuel cs2 [])
    | cs => (parseNumLex cs).map (fun p => (.num (String.mk p.1), p.2))

/-- Parse the elements of a non-empty JSON array (after the opening `[`). -/
def parseArrItems : Nat → List Char → List Json → Option (Json × List Char)
  | 0, _, _ => none
  | fuel + 1, cs, acc =>
    match parseVal fuel cs with
    | none => none
    | some (v, rest) =>
      match skipWs rest with
      | ']' :: rest2 => some (.arr (v :: acc).reverse, rest2)
      | ',' :: rest2 => parseArrItems fuel rest2 (v :: acc)
      | _ => none

/-- Parse the members of a non-empty JSON object (after the opening brace). -/
def parseObjItems : Nat → List Char → List (String × Json) → Option (Json × List Char)
  | 0, _, _ => none
  | fuel + 1, cs, acc =>
    match skipWs cs with
    | '"' :: rest =>
      (match parseStrBody (rest.length + 1) rest with
       | none => none
       | some (key, rest2) =>
         match skipWs rest2 with
         | ':' :: rest3 =>
           (match parseVal fuel rest3 with
            | none => none
            | some (v, rest4) =>
              match skipWs rest4 with
              | '}' :: rest5 => some (.obj ((String.mk key, v) :: acc).reverse, rest5)
              | ',' :: rest5 => parseObjItems fuel rest5 ((String.mk key, v) :: acc)
              | _ => none)
         | _ => none)
    | _ => none

end

/-- Model of `json.loads`: parse one JSON value and require that only
whitespace remains (otherwise CPython raises "Extra data"); any failure is
`none` (a `json.JSONDecodeError`). -/
def jsonLoads (s : String) : Option Json :=
  match parseVal (2 * s.data.length + 2) s.data with
  | some (v, rest) => if (skipWs rest).isEmpty then some v else none
  | none => none

/-- Whether a number lexeme denotes zero: it has a digit and every digit of
its mantissa (the part before any exponent) is `0`.  `NaN` and the infinities
have no digits and so are non-zero, matching Python float truthiness. -/
def numIsZero (lex : String) : Bool :=
  let mant := lex.data.takeWhile (fun c => c ≠ 'e' ∧ c ≠ 'E')
  mant.any (fun c => c.isDigit) && mant.all (fun c => !c.isDigit || c = '0')

/-- Python truthiness of a decoded JSON value (`if not code:`): `None`,
`False`, zero, and empty strings/lists/dicts are falsy. -/
def truthy : Json → Bool
  | .null => false
  | .bool b => b
  | .num lex => !numIsZero lex
  | .str s => !s.isEmpty
  | .arr l => !l.isEmpty
  | .obj l => !l.isEmpty

/-- Python `dict` lookup with a default (`data.get(key, default)`); with
duplicate keys the later binding wins, as in a `dict` built by `json.loads`. -/
def dictGet (fields : List (String × Json)) (key : String) (dflt : Json) : Json :=
  match fields.reverse.find? (fun kv => kv.1 = key) with
  | some kv => kv.2
  | none => dflt

/-- The text of the `AttributeError` raised by `None.get(...)` when
`request.get_json()` produced no JSON object. -/
def noneGetMsg : String := "AttributeError: NoneType object has no attribute get"

/-- Model of `data.get(key, default)` where `data` is the result of
`request.get_json()`: when that result is `None` (or not a `dict`), attribute
lookup of `get` raises an `AttributeError`, which the route's catch-all
`except` turns into a 500 response. -/
def pyGet (data : Option Json) (key : String) (dflt : Json) : Except String Json :=
  match data with
  | none => .error noneGetMsg
  | some (.obj fields) => .ok (dictGet fields key dflt)
  | some _ => .error "AttributeError: object has no attribute get"

/-- Python string slice `s[:n]` (by code points, as Python indexes `str`). -/
def pyTake (n : Nat) (s : String) : String := String.mk (s.data.take n)

/-- The fragment of Python regular expressions needed for the routes'
pattern: a literal character, `.` under `re.DOTALL` (matches any character,
newlines included), concatenation, and greedy `*`. -/
inductive RE where
  | chr (c : Char)
  | dotAll
  | cat (a b : RE)
  | star (r : RE)

/-- Backtracking matcher for `RE`, in Python's exploration order: `cat` runs
its left part with the right part in the continuation, and greedy `star`
first tries to consume one more repetition (requiring progress) and only
falls back to the empty repetition when that whole branch fails.  The
continuation receives the input remaining after the match; the first success
in exploration order is returned, so `star` consumes as much as possible. -/
def reMatch : Nat → RE → List Char → (List Char → Option (List Char)) → Option (List Char)
  | 0, _, _, _ => none
  | fuel + 1, re, cs, k =>
    match re with
    | .chr c =>
      (match cs with
       | x :: rest => if x = c then k rest else none
       | [] => none)
    | .dotAll =>
      (match cs with
       | _ :: rest => k rest
       | [] => none)
    | .cat a b => reMatch fuel a cs (fun rest => reMatch fuel b rest k)
    | .star r =>
      match reMatch fuel r cs
          (fun rest => if rest.length < cs.length then reMatch fuel (.star r) rest k
                       else none) with
      | some res => some res
      | none => k cs

/-- The pattern of every non-chat route: `r"\x7b.*\x7d"` — an opening brace,
any characters (DOTALL), a closing brace. -/
def braceRE : RE := .cat (.chr '{') (.cat (.star .dotAll) (.chr '}'))

/-- `re.search`: try to match at position 0, then 1, … and return the first
(leftmost) match's text, `group()`.  The matched text is the attempted
suffix minus what the matcher left over. -/
def reSearchAux (fuel : Nat) (pat : RE) : List Char → Option String
  | [] =>
    (match reMatch fuel pat [] (fun r => some r) with
     | some _ => some (String.mk [])
     | none => none)
  | c :: rest =>
    match reMatch fuel pat (c :: rest) (fun r => some r) with
    | some rem => some (String.mk ((c :: rest).take ((c :: rest).length - rem.length)))
    | none => reSearchAux fuel pat rest

/-- Model of `re.search(r"\x7b.*\x7d", s, re.DOTALL)` followed by `.group()`:
`some` of the matched text, or `none` when the pattern does not occur. -/
def reSearchBraces (s : String) : Option String :=
  reSearchAux (2 * s.data.length + 8) braceRE s.data

/-- An HTTP response as produced by the routes: a status code and the JSON
body passed to `jsonify` (a bare `return jsonify(x)` is status 200). -/
structure HttpResponse where
  status : Nat
  body : Json

/-- The error body `jsonify({"error": msg})`. -/
def errObj (msg : String) : Json := .obj [("error", .str msg)]

/-- Fallback envelope of `/analyze-code` (source lines 87–99 / 102–114):
a single synthetic suggestion whose recommendation is the first 200
characters of the raw completion text plus `"..."`. -/
def analyzeFallback (ai_response : String) : Json :=
  .obj [("suggestions", .arr [
    .obj [
      ("type", .str "analysis"),
      ("line", .num "1"),
      ("severity", .str "info"),
      ("message", .str "AI analysis completed"),
      ("recommendation", .str (pyTake 200 ai_response ++ "..."))]])]

/-- Fallback envelope of `/generate-tests` (source lines 182–194 / 196–208):
a single synthetic test whose code is the first 300 characters of the raw
completion text plus `"..."`. -/
def testsFallback (ai_response : String) : Json :=
  .obj [("tests", .arr [
    .obj [
      ("name", .str "AI Generated Test"),
      ("description", .str "Test case generated by AI"),
      ("code", .str (pyTake 300 ai_response ++ "...")),
      ("expected", .str "See test code"),
      ("category", .str "unit")]])]

/-- Fallback envelope of `/security-scan` (source lines 284–299 / 301–316):
score 75 and a single synthetic issue whose suggestion is the first 200
characters of the raw completion text plus `"..."`. -/
def securityFallback (ai_response : String) : Json :=
  .obj [
    ("security_score", .num "75"),
    ("issues", .arr [
      .obj [
        ("type", .str "Security Analysis"),
        ("severity", .str "info"),
        ("line", .num "1"),
        ("description", .str "AI security analysis completed"),
        ("suggestion", .str (pyTake 200 ai_response ++ "...")),
        ("cwe", .str "N/A")]]),
    ("recommendations", .arr [.str "Review AI analysis results"])]

/-- Fallback envelope of `/optimize-code` (source lines 424–430 / 432–438):
the raw completion text, in full and with no ellipsis, as `optimized_code`. -/
def optimizeFallback (ai_response : String) : Json :=
  .obj [
    ("optimized_code", .str ai_response),
    ("improvements", .arr [.str "AI optimization analysis completed"]),
    ("performance_gain", .str "See optimized code")]

/-- Handler of `POST /analyze-code` (source lines 17–117).  Fetch `code` and
`language` from the body, reject empty `code` with a 400, call the provider,
extract a brace-delimited region from the reply, parse it, and fall back to
`analyzeFallback` when either step fails; any exception gives a 500 with
"Analysis failed: …". -/
def analyze_code (data : Option Json) (provider : Except String String) : HttpResponse :=
  match pyGet data "code" (.str "") with
  | .error e => ⟨500, errObj ("Analysis failed: " ++ e)⟩
  | .ok code =>
    match pyGet data "language" (.str "javascript") with
    | .error e => ⟨500, errObj ("Analysis failed: " ++ e)⟩
    | .ok _language =>
      if truthy code = false then
        ⟨400, errObj "No code provided"⟩
      else
        match provider with
        | .error e => ⟨500, errObj ("Analysis failed: " ++ e)⟩
        | .ok ai_response =>
          match reSearchBraces ai_response with
          | some m =>
            (match jsonLoads m with
             | some suggestions_data => ⟨200, suggestions_data⟩
             | none => ⟨200, analyzeFallback ai_response⟩)
          | none => ⟨200, analyzeFallback ai_response⟩

/-- Handler of `POST /generate-tests` (source lines 120–211), with the same
structure as `analyze_code` and fallback `testsFallback`; exceptions give
"Test generation failed: …". -/
def generate_tests (data : Option Json) (provider : Except String String) : HttpResponse :=
  match pyGet data "code" (.str "") with
  | .error e => ⟨500, errObj ("Test generation failed: " ++ e)⟩
  | .ok code =>
    match pyGet data "language" (.str "javascript") with
    | .error e => ⟨500, errObj ("Test generation failed: " ++ e)⟩
    | .ok _language =>
      if truthy code = false then
        ⟨400, errObj "No code provided"⟩
      else
        match provider with
        | .error e => ⟨500, errObj ("Test generation failed: " ++ e)⟩
        | .ok ai_response =>
          match reSearchBraces ai_response with
          | some m =>
            (match jsonLoads m with
             | some tests_data => ⟨200, tests_data⟩
             | none => ⟨200, testsFallback ai_response⟩)
          | none => ⟨200, testsFallback ai_response⟩

/-- Handler of `POST /security-scan` (source lines 214–319), with the same
structure as `analyze_code` and fallback `securityFallback`; exceptions give
"Security scan failed: …". -/
def security_scan (data : Option Json) (provider : Except String String) : HttpResponse :=
  match pyGet data "code" (.str "") with
  | .error e => ⟨500, errObj ("Security scan failed: " ++ e)⟩
  | .ok code =>
    match pyGet data "language" (.str "javascript") with
    | .error e => ⟨500, errObj ("Security scan failed: " ++ e)⟩
    | .ok _language =>
      if truthy code = false then
        ⟨400, errObj "No code provided"⟩
      else
        match provider with
        | .error e => ⟨500, errObj ("Security scan failed: " ++ e)⟩
        | .ok ai_response =>
          match reSearchBraces ai_response with
          | some m =>
            (match jsonLoads m with
             | some security_data => ⟨200, security_data⟩
             | none => ⟨200, securityFallback ai_response⟩)
          | none => ⟨200, securityFallback ai_response⟩

/-- Handler of `POST /chat` (source lines 322–364).  Fetch `message` and
`code_context`, reject an empty message with a 400, and wrap the provider's
reply verbatim as `{"response": …, "timestamp": "now"}` — no extraction, no
parsing, no truncation; exceptions give "Chat failed: …". -/
def ai_chat (data : Option Json) (provider : Except String String) : HttpResponse :=
  match pyGet data "message" (.str "") with
  | .error e => ⟨500, errObj ("Chat failed: " ++ e)⟩
  | .ok message =>
    match pyGet data "code_context" (.str "") with
    | .error e => ⟨500, errObj ("Chat failed: " ++ e)⟩
    | .ok _code_context =>
      if truthy message = false then
        ⟨400, errObj "No message provided"⟩
      else
        match provider with
        | .error e => ⟨500, errObj ("Chat failed: " ++ e)⟩
        | .ok ai_response =>
          ⟨200, .obj [("response", .str ai_response), ("timestamp", .str "now")]⟩

/-- Handler of `POST /optimize-code` (source lines 367–441), with the same
structure as `analyze_code` and fallback `optimizeFallback`; exceptions give
"Code optimization failed: …". -/
def optimize_code (data : Option Json) (provider : Except String String) : HttpResponse :=
  match pyGet data "code" (.str "") with
  | .error e => ⟨500, errObj ("Code optimization failed: " ++ e)⟩
  | .ok code =>
    match pyGet data "language" (.str "javascript") with
    | .error e => ⟨500, errObj ("Code optimization failed: " ++ e)⟩
    | .ok _language =>
      if truthy code = false then
        ⟨400, errObj "No code provided"⟩
      else
        match provider with
        | .error e => ⟨500, errObj ("Code optimization failed: " ++ e)⟩
        | .ok ai_response =>
          match reSearchBraces ai_response with
          | some m =>
            (match jsonLoads m with
             | some optimization_data => ⟨200, optimization_data⟩
             | none => ⟨200, optimizeFallback ai_response⟩)
          | none => ⟨200, optimizeFallback ai_response⟩

/-- Index of the first occurrence of `c`, if any. -/
def firstIdxOf (c : Char) : List Char → Option Nat
  | [] => none
  | x :: xs => if x = c then some 0 else (firstIdxOf c xs).map (· + 1)

/-- Index of the last occurrence of `c`, if any. -/
def lastIdxOf (c : Char) : List Char → Option Nat
  | [] => none
  | x :: xs =>
    match lastIdxOf c xs with
    | some j => some (j + 1)
    | none => if x = c then some 0 else none

/-- The first-open-brace-to-last-close-brace span of a character list: the
slice from the leftmost brace through the rightmost closing brace, provided
the latter comes strictly after the former. -/
def braceSpanList (cs : List Char) : Option (List Char) :=
  match firstIdxOf '{' cs, lastIdxOf '}' cs with
  | some i, some j => if i < j then some ((cs.drop i).take (j - i + 1)) else none
  | _, _ => none

/-- Modelled from the spec: the JSON-extraction step "the leftmost `\x7b`
through the rightmost `\x7d` in the text (a greedy first open brace to last
close brace scan)", failing when no opening brace is later followed by a
closing one.  Stated independently of the regex engine so that the engine's
behaviour can be compared against it. -/
def braceScanSpec (s : String) : Option String :=
  (braceSpanList s.data).map (fun l => String.mk l)

/-- Whether a decoded JSON value is an object carrying the given top-level
key. -/
def hasKeyJ (j : Json) (k : String) : Bool :=
  match j with
  | .obj fs => fs.any (fun kv => kv.1 == k)
  | _ => false

/-- Whether a decoded JSON value is an object. -/
def Json.isObj : Json → Bool
  | .obj _ => true
  | _ => false

/-- Value of a top-level key of a JSON object, if present. -/
def lookupKey (j : Json) (k : String) : Option Json :=
  match j with
  | .obj fs => (fs.find? (fun kv => kv.1 == k)).map (fun kv => kv.2)
  | _ => none

/-- First element of a JSON array, if any. -/
def firstElem : Json → Option Json
  | .arr (x :: _) => some x
  | _ => none

/-- The completion text could not be interpreted as JSON: either no
brace-delimited region was found, or the region found does not parse. -/
def extractionFails (ai : String) : Prop :=
  reSearchBraces ai = none ∨ ∃ m, reSearchBraces ai = some m ∧ jsonLoads m = none

/-- Proof-side reformulation of a greedy `.*` before a continuation: try the
continuation on every suffix, longest consumption first. -/
def greedyAux (k : List Char → Option (List Char)) : List Char → Option (List Char)
  | [] => k []
  | c :: rest =>
    match greedyAux k rest with
    | some r => some r
    | none => k (c :: rest)

/-- The continuation that a trailing `\x7d` literal imposes: the next
character must be the closing brace. -/
def closeBraceK : List Char → Option (List Char)
  | x :: r => if x = '}' then some r else none
  | [] => none

lemma reMatch_star_dotAll_cons (g : Nat) (c : Char) (rest : List Char)
    (k : List Char → Option (List Char)) :
    reMatch (g + 2) (.star .dotAll) (c :: rest) k =
      match reMatch (g + 1) (.star .dotAll) rest k with
      | some r => some r
      | none => k (c :: rest) := by
  show (match
        (if rest.length < (c :: rest).length then reMatch (g + 1) (.star .dotAll) rest k
         else none) with
      | some res => some res
      | none => k (c :: rest)) = _
  rw [if_pos (by simp)]

lemma reMatch_star_dotAll (cs : List Char) :
    ∀ (fuel : Nat) (k : List Char → Option (List Char)),
      2 * cs.length + 2 ≤ fuel →
      reMatch fuel (.star .dotAll) cs k = greedyAux k cs := by
  induction cs with
  | nil =>
    intro fuel k h
    obtain ⟨f, rfl⟩ : ∃ f, fuel = f + 1 := ⟨fuel - 1, by omega⟩
    cases f with
    | zero => simp [reMatch, greedyAux]
    | succ g => simp [reMatch, greedyAux]
  | cons c rest ih =>
    intro fuel k h
    obtain ⟨g, rfl⟩ : ∃ g, fuel = g + 2 := ⟨fuel - 2, by omega⟩
    rw [reMatch_star_dotAll_cons, ih (g + 1) k (by simp at h; omega)]
    cases hg : greedyAux k rest with
    | some r => simp [greedyAux, hg]
    | none => simp [greedyAux, hg]

lemma reMatch_chr_close (g : Nat) (rest : List Char) :
    reMatch (g + 1) (.chr '}') rest (fun r => some r) = closeBraceK rest := by
  cases rest with
  | nil => rfl
  | cons x xs => rfl

lemma greedyAux_closeBraceK (cs : List Char) :
    greedyAux closeBraceK cs =
      match lastIdxOf '}' cs with
      | some j => some (cs.drop (j + 1))
      | none => none := by
  induction cs with
  | nil => rfl
  | cons c rest ih =>
    simp only [greedyAux, ih]
    cases hl : lastIdxOf '}' rest with
    | some j => simp [lastIdxOf, hl]
    | none =>
      simp only [lastIdxOf, hl]
      by_cases hc : c = '}'
      · subst hc
        simp [closeBraceK]
      · simp [closeBraceK, hc]

lemma reMatch_braceRE_nil (fuel : Nat) :
    reMatch fuel braceRE [] (fun r => some r) = none := by
  cases fuel with
  | zero => rfl
  | succ f =>
    cases f with
    | zero => rfl
    | succ g => rfl

lemma lastIdxOf_lt {c : Char} :
    ∀ {cs : List Char} {j : Nat}, lastIdxOf c cs = some j → j < cs.length := by
  intro cs
  induction cs with
  | nil => intro j h; simp [lastIdxOf] at h
  | cons x xs ih =>
    intro j h
    simp only [lastIdxOf] at h
    cases hx : lastIdxOf c xs with
    | some j' =>
      rw [hx] at h
      have : j = j' + 1 := by injection h; omega
      subst this
      have := ih hx
      simp
      omega
    | none =>
      rw [hx] at h
      by_cases hxc : x = c
      · rw [if_pos hxc] at h
        have : j = 0 := by injection h; omega
        subst this
        simp
      · rw [if_neg hxc] at h
        exact absurd h (by simp)

lemma braceSpanList_cons_open (rest : List Char) :
    braceSpanList ('{' :: rest) =
      match lastIdxOf '}' rest with
      | some j => some (('{' :: rest).take (j + 2))
      | none => none := by
  simp only [braceSpanList, firstIdxOf, if_pos rfl, lastIdxOf]
  cases hl : lastIdxOf '}' rest with
  | some j => simp
  | none => simp

lemma braceSpanList_cons_not_open {c : Char} (h : c ≠ '{') (rest : List Char) :
    braceSpanList (c :: rest) = braceSpanList rest := by
  simp only [braceSpanList, firstIdxOf, if_neg h, lastIdxOf]
  cases hf : firstIdxOf '{' rest with
  | none => simp
  | some i =>
    cases hl : lastIdxOf '}' rest with
    | some j =>
      by_cases hij : i < j
      · simp [hij, Nat.succ_sub_succ, Nat.add_lt_add_iff_right]
      · simp [hij, Nat.add_lt_add_iff_right]
    | none =>
      by_cases hc : c = '}'
      · rw [if_pos hc]
        simp
      · rw [if_neg hc]
        simp

lemma braceSpanList_no_close {cs : List Char} (h : lastIdxOf '}' cs = none) :
    braceSpanList cs = none := by
  simp only [braceSpanList, h]
  cases firstIdxOf '{' cs <;> simp

lemma reMatch_braceRE_cons (e : Nat) (x : Char) (rest : List Char)
    (h : 2 * rest.length + 2 ≤ e + 1) :
    reMatch (e + 3) braceRE (x :: rest) (fun r => some r) =
      if x = '{' then
        (match lastIdxOf '}' rest with
         | some j => some (rest.drop (j + 1))
         | none => none)
      else none := by
  have hstep : reMatch (e + 3) braceRE (x :: rest) (fun r => some r) =
      if x = '{' then
        reMatch (e + 2) (.cat (.star .dotAll) (.chr '}')) rest (fun r => some r)
      else none := rfl
  have hinner : reMatch (e + 2) (.cat (.star .dotAll) (.chr '}')) rest (fun r => some r) =
      reMatch (e + 1) (.star .dotAll) rest
        (fun r2 => reMatch (e + 1) (.chr '}') r2 (fun r => some r)) := rfl
  have hk : (fun r2 => reMatch (e + 1) (.chr '}') r2 (fun r => some r)) = closeBraceK :=
    funext fun r2 => reMatch_chr_close e r2
  rw [hstep, hinner, hk, reMatch_star_dotAll rest (e + 1) closeBraceK h,
    greedyAux_closeBraceK rest]

lemma reSearchAux_braceRE :
    ∀ (cs : List Char) (fuel : Nat), 2 * cs.length + 6 ≤ fuel →
      reSearchAux fuel braceRE cs = (braceSpanList cs).map (fun l => String.mk l) := by
  intro cs
  induction cs with
  | nil =>
    intro fuel h
    simp only [reSearchAux, reMatch_braceRE_nil]
    simp [braceSpanList, firstIdxOf]
  | cons c rest ih =>
    intro fuel h
    obtain ⟨e, rfl⟩ : ∃ e, fuel = e + 3 := ⟨fuel - 3, by omega⟩
    simp only [reSearchAux]
    rw [reMatch_braceRE_cons e c rest (by simp at h; omega)]
    by_cases hc : c = '{'
    · subst hc
      rw [if_pos rfl, braceSpanList_cons_open rest]
      cases hl : lastIdxOf '}' rest with
      | some j =>
        have hj : j < rest.length := lastIdxOf_lt hl
        have hlen : ('{' :: rest).length - (rest.drop (j + 1)).length = j + 2 := by
          simp [List.length_drop]
          omega
        simp only [hlen, Option.map_some']
      | none =>
        simp only
        rw [ih (e + 3) (by simp at h; omega), braceSpanList_no_close hl]
    · rw [if_neg hc, braceSpanList_cons_not_open hc rest]
      exact ih (e + 3) (by simp at h; omega)

lemma reSearchBraces_eq_spec (s : String) : reSearchBraces s = braceScanSpec s :=
  reSearchAux_braceRE s.data (2 * s.data.length + 8) (by omega)

lemma firstIdxOf_get {c : Char} :
    ∀ {cs : List Char} {i : Nat}, firstIdxOf c cs = some i → cs.get? i = some c := by
  intro cs
  induction cs with
  | nil => intro i h; simp [firstIdxOf] at h
  | cons x xs ih =>
    intro i h
    simp only [firstIdxOf] at h
    by_cases hx : x = c
    · rw [if_pos hx] at h
      obtain rfl : i = 0 := by injection h; omega
      simp [hx]
    · rw [if_neg hx] at h
      cases hf : firstIdxOf c xs with
      | none => rw [hf] at h; simp at h
      | some i' =>
        rw [hf] at h
        obtain rfl : i = i' + 1 := by simp at h; omega
        simpa using ih hf

lemma firstIdxOf_min {c : Char} :
    ∀ {cs : List Char} {i : Nat}, cs.get? i = some c →
      ∃ i0, firstIdxOf c cs = some i0 ∧ i0 ≤ i := by
  intro cs
  induction cs with
  | nil => intro i h; simp at h
  | cons x xs ih =>
    intro i h
    by_cases hx : x = c
    · exact ⟨0, by simp [firstIdxOf, hx], by omega⟩
    · cases i with
      | zero => simp at h; exact absurd h hx
      | succ i' =>
        simp only [List.get?_cons_succ] at h
        obtain ⟨i0, hi0, hle⟩ := ih h
        exact ⟨i0 + 1, by simp [firstIdxOf, hx, hi0], by omega⟩

lemma lastIdxOf_get {c : Char} :
    ∀ {cs : List Char} {j : Nat}, lastIdxOf c cs = some j → cs.get? j = some c := by
  intro cs
  induction cs with
  | nil => intro j h; simp [lastIdxOf] at h
  | cons x xs ih =>
    intro j h
    simp only [lastIdxOf] at h
    cases hl : lastIdxOf c xs with
    | some j' =>
      rw [hl] at h
      obtain rfl : j = j' + 1 := by simp at h; omega
      simpa using ih hl
    | none =>
      rw [hl] at h
      by_cases hx : x = c
      · rw [if_pos hx] at h
        obtain rfl : j = 0 := by injection h; omega
        simp [hx]
      · rw [if_neg hx] at h
        simp at h

lemma lastIdxOf_max {c : Char} :
    ∀ {cs : List Char} {j : Nat}, cs.get? j = some c →
      ∃ j0, lastIdxOf c cs = some j0 ∧ j ≤ j0 := by
  intro cs
  induction cs with
  | nil => intro j h; simp at h
  | cons x xs ih =>
    intro j h
    cases j with
    | zero =>
      simp only [List.get?_cons_zero] at h
      have hx : x = c := by injection h
      cases hl : lastIdxOf c xs with
      | some j' => exact ⟨j' + 1, by simp [lastIdxOf, hl], by omega⟩
      | none => exact ⟨0, by simp [lastIdxOf, hl, hx], by omega⟩
    | succ j' =>
      simp only [List.get?_cons_succ] at h
      obtain ⟨j0, hj0, hle⟩ := ih h
      exact ⟨j0 + 1, by simp [lastIdxOf, hj0], by omega⟩

lemma getLast?_lastIdxOf {c : Char} :
    ∀ {cs : List Char}, cs.getLast? = some c → lastIdxOf c cs = some (cs.length - 1) := by
  intro cs
  induction cs with
  | nil => intro h; simp at h
  | cons x xs ih =>
    intro h
    cases xs with
    | nil =>
      simp only [List.getLast?_singleton] at h
      have hx : x = c := by injection h
      simp [lastIdxOf, hx]
    | cons y ys =>
      rw [List.getLast?_cons_cons] at h
      have hrec := ih h
      have hstep : lastIdxOf c (x :: y :: ys)
          = match lastIdxOf c (y :: ys) with
            | some j => some (j + 1)
            | none => if x = c then some 0 else none := rfl
      rw [hstep, hrec]
      simp

lemma head?_drop (cs : List Char) : ∀ i : Nat, (cs.drop i).head? = cs.get? i := by
  induction cs with
  | nil => intro i; simp
  | cons x xs ih =>
    intro i
    cases i with
    | zero => simp
    | succ i' =>
      rw [List.drop_succ_cons, List.get?_cons_succ]
      exact ih i'

lemma head?_take_succ (cs : List Char) (n : Nat) : (cs.take (n + 1)).head? = cs.head? := by
  cases cs <;> simp

lemma reSearchBraces_whole {t : String} (hhead : t.data.head? = some '{')
    (hlast : t.data.getLast? = some '}') : reSearchBraces t = some t := by
  rw [reSearchBraces_eq_spec]
  unfold braceScanSpec
  cases hd : t.data with
  | nil => rw [hd] at hhead; simp at hhead
  | cons a l =>
    rw [hd] at hhead hlast
    have ha : a = '{' := by simpa using hhead
    cases l with
    | nil =>
      have ha2 : a = '}' := by simpa using hlast
      rw [ha] at ha2
      exact absurd ha2 (by decide)
    | cons b m =>
      have hfirst : firstIdxOf '{' (a :: b :: m) = some 0 := by simp [firstIdxOf, ha]
      have hlst : lastIdxOf '}' (a :: b :: m) = some ((a :: b :: m).length - 1) :=
        getLast?_lastIdxOf hlast
      have hspan : braceSpanList (a :: b :: m) =
          some (((a :: b :: m).drop 0).take ((a :: b :: m).length - 1 - 0 + 1)) := by
        rw [braceSpanList, hfirst, hlst]
        exact if_pos (by simp)
      rw [hspan]
      have hn : (a :: b :: m).length - 1 - 0 + 1 = (a :: b :: m).length := by
        simp
      rw [hn]
      simp only [List.drop_zero, List.take_length, Option.map_some']
      rw [← hd]

lemma reSearchBraces_open {s m : String} (h : reSearchBraces s = some m) :
    m.data.head? = some '{' := by
  rw [reSearchBraces_eq_spec] at h
  unfold braceScanSpec at h
  cases hb : braceSpanList s.data with
  | none => rw [hb] at h; simp at h
  | some l =>
    rw [hb] at h
    simp only [Option.map_some', Option.some.injEq] at h
    rw [braceSpanList] at hb
    cases hf : firstIdxOf '{' s.data with
    | none => rw [hf] at hb; simp at hb
    | some i =>
      cases hl : lastIdxOf '}' s.data with
      | none => rw [hf, hl] at hb; simp at hb
      | some j =>
        rw [hf, hl] at hb
        have hb' : (if i < j then some ((s.data.drop i).take (j - i + 1)) else none)
            = some l := hb
        by_cases hij : i < j
        · rw [if_pos hij] at hb'
          have hbl : l = (s.data.drop i).take (j - i + 1) := by
            injection hb' with h2
            exact h2.symm
          have hml : m.data = l := by rw [← h]
          rw [hml, hbl]
          have hsucc : j - i + 1 = (j - i) + 1 := rfl
          rw [hsucc, head?_take_succ, head?_drop]
          exact firstIdxOf_get hf
        · rw [if_neg hij] at hb'; simp at hb'

lemma parseObjItems_isObj :
    ∀ (fuel : Nat) (cs : List Char) (acc : List (String × Json)) (v : Json)
      (rest : List Char), parseObjItems fuel cs acc = some (v, rest) → v.isObj = true := by
  intro fuel
  induction fuel with
  | zero => intro cs acc v rest h; simp [parseObjItems] at h
  | succ f ih =>
    intro cs acc v rest h
    simp only [parseObjItems] at h
    split at h
    · split at h
      · exact absurd h (by simp)
      · split at h
        · split at h
          · exact absurd h (by simp)
          · split at h
            · simp only [Option.some.injEq, Prod.mk.injEq] at h
              rw [← h.1]
              rfl
            · exact ih _ _ _ _ h
            · exact absurd h (by simp)
        · exact absurd h (by simp)
    · exact absurd h (by simp)

lemma jsonLoads_open_isObj {m : String} {v : Json} (hm : m.data.head? = some '{')
    (h : jsonLoads m = some v) : v.isObj = true := by
  unfold jsonLoads at h
  cases hd : m.data with
  | nil => rw [hd] at hm; simp at hm
  | cons a rest =>
    rw [hd] at hm h
    have ha : a = '{' := by simpa using hm
    subst ha
    obtain ⟨g, hg⟩ : ∃ g, 2 * ('{' :: rest).length + 2 = g + 1 :=
      ⟨2 * ('{' :: rest).length + 1, by omega⟩
    rw [hg] at h
    have hunf : parseVal (g + 1) ('{' :: rest)
        = (match skipWs rest with
           | '}' :: rest2 => some (.obj [], rest2)
           | cs2 => parseObjItems g cs2 []) := rfl
    rw [hunf] at h
    split at h
    · rename_i v' rest' heq
      split at h
      · have hv : v' = v := by injection h
        subst hv
        split at heq
        · have heq2 : Json.obj [] = v' := by
            have := congrArg (fun p => p.map Prod.fst) heq
            simpa using this
          rw [← heq2]
          rfl
        · exact parseObjItems_isObj _ _ _ _ _ heq
      · exact absurd h (by simp)
    · exact absurd h (by simp)

lemma braceSpanList_none_iff (cs : List Char) :
    braceSpanList cs = none ↔
      ¬ ∃ i j, i < j ∧ cs.get? i = some '{' ∧ cs.get? j = some '}' := by
  constructor
  · intro hnone ⟨i, j, hij, hi, hj⟩
    obtain ⟨i0, hi0, hi0le⟩ := firstIdxOf_min hi
    obtain ⟨j0, hj0, hj0ge⟩ := lastIdxOf_max hj
    have hlt : i0 < j0 := by omega
    rw [braceSpanList, hi0, hj0] at hnone
    simp [hlt] at hnone
  · intro hno
    cases hf : firstIdxOf '{' cs with
    | none => simp [braceSpanList, hf]
    | some i =>
      cases hl : lastIdxOf '}' cs with
      | none => simp [braceSpanList, hf, hl]
      | some j =>
        by_cases hij : i < j
        · exact absurd ⟨i, j, hij, firstIdxOf_get hf, lastIdxOf_get hl⟩ hno
        · simp [braceSpanList, hf, hl, hij]

lemma analyze_code_ok (fields : List (String × Json)) (ai : String)
    (hcode : truthy (dictGet fields "code" (.str "")) = true) :
    analyze_code (some (.obj fields)) (.ok ai) =
      match reSearchBraces ai with
      | some m =>
        (match jsonLoads m with
         | some d => ⟨200, d⟩
         | none => ⟨200, analyzeFallback ai⟩)
      | none => ⟨200, analyzeFallback ai⟩ := by
  show (if truthy (dictGet fields "code" (.str "")) = false
      then (⟨400, errObj "No code provided"⟩ : HttpResponse)
      else _) = _
  rw [if_neg (by simp [hcode])]

lemma generate_tests_ok (fields : List (String × Json)) (ai : String)
    (hcode : truthy (dictGet fields "code" (.str "")) = true) :
    generate_tests (some (.obj fields)) (.ok ai) =
      match reSearchBraces ai with
      | some m =>
        (match jsonLoads m with
         | some d => ⟨200, d⟩
         | none => ⟨200, testsFallback ai⟩)
      | none => ⟨200, testsFallback ai⟩ := by
  show (if truthy (dictGet fields "code" (.str "")) = false
      then (⟨400, errObj "No code provided"⟩ : HttpResponse)
      else _) = _
  rw [if_neg (by simp [hcode])]

lemma security_scan_ok (fields : List (String × Json)) (ai : String)
    (hcode : truthy (dictGet fields "code" (.str "")) = true) :
    security_scan (some (.obj fields)) (.ok ai) =
      match reSearchBraces ai with
      | some m =>
        (match jsonLoads m with
         | some d => ⟨200, d⟩
         | none => ⟨200, securityFallback ai⟩)
      | none => ⟨200, securityFallback ai⟩ := by
  show (if truthy (dictGet fields "code" (.str "")) = false
      then (⟨400, errObj "No code provided"⟩ : HttpResponse)
      else _) = _
  rw [if_neg (by simp [hcode])]

lemma optimize_code_ok (fields : List (String × Json)) (ai : String)
    (hcode : truthy (dictGet fields "code" (.str "")) = true) :
    optimize_code (some (.obj fields)) (.ok ai) =
      match reSearchBraces ai with
      | some m =>
        (match jsonLoads m with
         | some d => ⟨200, d⟩
         | none => ⟨200, optimizeFallback ai⟩)
      | none => ⟨200, optimizeFallback ai⟩ := by
  show (if truthy (dictGet fields "code" (.str "")) = false
      then (⟨400, errObj "No code provided"⟩ : HttpResponse)
      else _) = _
  rw [if_neg (by simp [hcode])]

lemma ai_chat_ok (fields : List (String × Json)) (ai : String)
    (hmsg : truthy (dictGet fields "message" (.str "")) = true) :
    ai_chat (some (.obj fields)) (.ok ai) =
      ⟨200, .obj [("response", .str ai), ("timestamp", .str "now")]⟩ := by
  show (if truthy (dictGet fields "message" (.str "")) = false
      then (⟨400, errObj "No message provided"⟩ : HttpResponse)
      else _) = _
  rw [if_neg (by simp [hmsg])]

lemma analyze_code_err (fields : List (String × Json)) (msg : String)
    (hcode : truthy (dictGet fields "code" (.str "")) = true) :
    analyze_code (some (.obj fields)) (.error msg) =
      ⟨500, errObj ("Analysis failed: " ++ msg)⟩ := by
  show (if truthy (dictGet fields "code" (.str "")) = false
      then (⟨400, errObj "No code provided"⟩ : HttpResponse)
      else _) = _
  rw [if_neg (by simp [hcode])]

lemma generate_tests_err (fields : List (String × Json)) (msg : String)
    (hcode : truthy (dictGet fields "code" (.str "")) = true) :
    generate_tests (some (.obj fields)) (.error msg) =
      ⟨500, errObj ("Test generation failed: " ++ msg)⟩ := by
  show (if truthy (dictGet fields "code" (.str "")) = false
      then (⟨400, errObj "No code provided"⟩ : HttpResponse)
      else _) = _
  rw [if_neg (by simp [hcode])]

lemma security_scan_err (fields : List (String × Json)) (msg : String)
    (hcode : truthy (dictGet fields "code" (.str "")) = true) :
    security_scan (some (.obj fields)) (.error msg) =
      ⟨500, errObj ("Security scan failed: " ++ msg)⟩ := by
  show (if truthy (dictGet fields "code" (.str "")) = false
      then (⟨400, errObj "No code provided"⟩ : HttpResponse)
      else _) = _
  rw [if_neg (by simp [hcode])]

lemma optimize_code_err (fields : List (String × Json)) (msg : String)
    (hcode : truthy (dictGet fields "code" (.str "")) = true) :
    optimize_code (some (.obj fields)) (.error msg) =
      ⟨500, errObj ("Code optimization failed: " ++ msg)⟩ := by
  show (if truthy (dictGet fields "code" (.str "")) = false
      then (⟨400, errObj "No code provided"⟩ : HttpResponse)
      else _) = _
  rw [if_neg (by simp [hcode])]

lemma ai_chat_err (fields : List (String × Json)) (msg : String)
    (hmsg : truthy (dictGet fields "message" (.str "")) = true) :
    ai_chat (some (.obj fields)) (.error msg) =
      ⟨500, errObj ("Chat failed: " ++ msg)⟩ := by
  show (if truthy (dictGet fields "message" (.str "")) = false
      then (⟨400, errObj "No message provided"⟩ : HttpResponse)
      else _) = _
  rw [if_neg (by simp [hmsg])]

lemma analyze_code_400 (fields : List (String × Json)) (provider : Except String String)
    (hempty : dictGet fields "code" (.str "") = .str "") :
    analyze_code (some (.obj fields)) provider = ⟨400, errObj "No code provided"⟩ := by
  show (if truthy (dictGet fields "code" (.str "")) = false
      then (⟨400, errObj "No code provided"⟩ : HttpResponse)
      else _) = _
  rw [if_pos (by rw [hempty]; rfl)]

lemma generate_tests_400 (fields : List (String × Json)) (provider : Except String String)
    (hempty : dictGet fields "code" (.str "") = .str "") :
    generate_tests (some (.obj fields)) provider = ⟨400, errObj "No code provided"⟩ := by
  show (if truthy (dictGet fields "code" (.str "")) = false
      then (⟨400, errObj "No code provided"⟩ : HttpResponse)
      else _) = _
  rw [if_pos (by rw [hempty]; rfl)]

lemma security_scan_400 (fields : List (String × Json)) (provider : Except String String)
    (hempty : dictGet fields "code" (.str "") = .str "") :
    security_scan (some (.obj fields)) provider = ⟨400, errObj "No code provided"⟩ := by
  show (if truthy (dictGet fields "code" (.str "")) = false
      then (⟨400, errObj "No code provided"⟩ : HttpResponse)
      else _) = _
  rw [if_pos (by rw [hempty]; rfl)]

lemma optimize_code_400 (fields : List (String × Json)) (provider : Except String String)
    (hempty : dictGet fields "code" (.str "") = .str "") :
    optimize_code (some (.obj fields)) provider = ⟨400, errObj "No code provided"⟩ := by
  show (if truthy (dictGet fields "code" (.str "")) = false
      then (⟨400, errObj "No code provided"⟩ : HttpResponse)
      else _) = _
  rw [if_pos (by rw [hempty]; rfl)]

lemma ai_chat_400 (fields : List (String × Json)) (provider : Except String String)
    (hempty : dictGet fields "message" (.str "") = .str "") :
    ai_chat (some (.obj fields)) provider = ⟨400, errObj "No message provided"⟩ := by
  show (if truthy (dictGet fields "message" (.str "")) = false
      then (⟨400, errObj "No message provided"⟩ : HttpResponse)
      else _) = _
  rw [if_pos (by rw [hempty]; rfl)]

lemma analyze_code_fb (fields : List (String × Json)) (ai : String)
    (hcode : truthy (dictGet fields "code" (.str "")) = true)
    (hfail : extractionFails ai) :
    analyze_code (some (.obj fields)) (.ok ai) = ⟨200, analyzeFallback ai⟩ := by
  rw [analyze_code_ok fields ai hcode]
  rcases hfail with hnone | ⟨m, hm, hp⟩
  · rw [hnone]
  · simp only [hm, hp]

lemma generate_tests_fb (fields : List (String × Json)) (ai : String)
    (hcode : truthy (dictGet fields "code" (.str "")) = true)
    (hfail : extractionFails ai) :
    generate_tests (some (.obj fields)) (.ok ai) = ⟨200, testsFallback ai⟩ := by
  rw [generate_tests_ok fields ai hcode]
  rcases hfail with hnone | ⟨m, hm, hp⟩
  · rw [hnone]
  · simp only [hm, hp]

lemma security_scan_fb (fields : List (String × Json)) (ai : String)
    (hcode : truthy (dictGet fields "code" (.str "")) = true)
    (hfail : extractionFails ai) :
    security_scan (some (.obj fields)) (.ok ai) = ⟨200, securityFallback ai⟩ := by
  rw [security_scan_ok fields ai hcode]
  rcases hfail with hnone | ⟨m, hm, hp⟩
  · rw [hnone]
  · simp only [hm, hp]

lemma optimize_code_fb (fields : List (String × Json)) (ai : String)
    (hcode : truthy (dictGet fields "code" (.str "")) = true)
    (hfail : extractionFails ai) :
    optimize_code (some (.obj fields)) (.ok ai) = ⟨200, optimizeFallback ai⟩ := by
  rw [optimize_code_ok fields ai hcode]
  rcases hfail with hnone | ⟨m, hm, hp⟩
  · rw [hnone]
  · simp only [hm, hp]

lemma analyze_code_200_inputs {data : Option Json} {ai : String}
    (h200 : (analyze_code data (.ok ai)).status = 200) :
    ∃ fields, data = some (.obj fields) ∧
      truthy (dictGet fields "code" (.str "")) = true := by
  cases data with
  | none => simp [analyze_code, pyGet] at h200
  | some j =>
    cases j with
    | obj fields =>
      cases hcv : truthy (dictGet fields "code" (.str "")) with
      | true => exact ⟨fields, rfl, hcv⟩
      | false => simp [analyze_code, pyGet, hcv] at h200
    | null => simp [analyze_code, pyGet] at h200
    | bool b => simp [analyze_code, pyGet] at h200
    | num l => simp [analyze_code, pyGet] at h200
    | str s => simp [analyze_code, pyGet] at h200
    | arr l => simp [analyze_code, pyGet] at h200

lemma generate_tests_200_inputs {data : Option Json} {ai : String}
    (h200 : (generate_tests data (.ok ai)).status = 200) :
    ∃ fields, data = some (.obj fields) ∧
      truthy (dictGet fields "code" (.str "")) = true := by
  cases data with
  | none => simp [generate_tests, pyGet] at h200
  | some j =>
    cases j with
    | obj fields =>
      cases hcv : truthy (dictGet fields "code" (.str "")) with
      | true => exact ⟨fields, rfl, hcv⟩
      | false => simp [generate_tests, pyGet, hcv] at h200
    | null => simp [generate_tests, pyGet] at h200
    | bool b => simp [generate_tests, pyGet] at h200
    | num l => simp [generate_tests, pyGet] at h200
    | str s => simp [generate_tests, pyGet] at h200
    | arr l => simp [generate_tests, pyGet] at h200

lemma security_scan_200_inputs {data : Option Json} {ai : String}
    (h200 : (security_scan data (.ok ai)).status = 200) :
    ∃ fields, data = some (.obj fields) ∧
      truthy (dictGet fields "code" (.str "")) = true := by
  cases data with
  | none => simp [security_scan, pyGet] at h200
  | some j =>
    cases j with
    | obj fields =>
      cases hcv : truthy (dictGet fields "code" (.str "")) with
      | true => exact ⟨fields, rfl, hcv⟩
      | false => simp [security_scan, pyGet, hcv] at h200
    | null => simp [security_scan, pyGet] at h200
    | bool b => simp [security_scan, pyGet] at h200
    | num l => simp [security_scan, pyGet] at h200
    | str s => simp [security_scan, pyGet] at h200
    | arr l => simp [security_scan, pyGet] at h200

lemma optimize_code_200_inputs {data : Option Json} {ai : String}
    (h200 : (optimize_code data (.ok ai)).status = 200) :
    ∃ fields, data = some (.obj fields) ∧
      truthy (dictGet fields "code" (.str "")) = true := by
  cases data with
  | none => simp [optimize_code, pyGet] at h200
  | some j =>
    cases j with
    | obj fields =>
      cases hcv : truthy (dictGet fields "code" (.str "")) with
      | true => exact ⟨fields, rfl, hcv⟩
      | false => simp [optimize_code, pyGet, hcv] at h200
    | null => simp [optimize_code, pyGet] at h200
    | bool b => simp [optimize_code, pyGet] at h200
    | num l => simp [optimize_code, pyGet] at h200
    | str s => simp [optimize_code, pyGet] at h200
    | arr l => simp [optimize_code, pyGet] at h200

lemma ai_chat_200_inputs {data : Option Json} {provider : Except String String}
    (h200 : (ai_chat data provider).status = 200) :
    ∃ fields ai, data = some (.obj fields) ∧ provider = .ok ai ∧
      truthy (dictGet fields "message" (.str "")) = true := by
  cases data with
  | none => simp [ai_chat, pyGet] at h200
  | some j =>
    cases j with
    | obj fields =>
      cases hcv : truthy (dictGet fields "message" (.str "")) with
      | true =>
        cases provider with
        | error e => simp [ai_chat, pyGet, hcv] at h200
        | ok ai => exact ⟨fields, ai, rfl, rfl, hcv⟩
      | false => simp [ai_chat, pyGet, hcv] at h200
    | null => simp [ai_chat, pyGet] at h200
    | bool b => simp [ai_chat, pyGet] at h200
    | num l => simp [ai_chat, pyGet] at h200
    | str s => simp [ai_chat, pyGet] at h200
    | arr l => simp [ai_chat, pyGet] at h200

/-- Claim C3: for every task except chat, with a valid request body, if the
completion text contains no brace-delimited substring, or the extracted
substring fails to parse as JSON, the response is HTTP 200 with that task's
fixed-shape fallback envelope embedding the raw completion text; both
failure modes (hypothesis `extractionFails`, a disjunction of the two) yield
the same fallback object, as the conclusion does not depend on which
disjunct holds. -/
theorem c3_fallback_envelope (fields : List (String × Json)) (ai : String)
    (hcode : truthy (dictGet fields "code" (.str "")) = true)
    (hfail : extractionFails ai) :
    analyze_code (some (.obj fields)) (.ok ai) = ⟨200, analyzeFallback ai⟩ ∧
    generate_tests (some (.obj fields)) (.ok ai) = ⟨200, testsFallback ai⟩ ∧
    security_scan (some (.obj fields)) (.ok ai) = ⟨200, securityFallback ai⟩ ∧
    optimize_code (some (.obj fields)) (.ok ai) = ⟨200, optimizeFallback ai⟩ :=
  ⟨analyze_code_fb fields ai hcode hfail, generate_tests_fb fields ai hcode hfail,
   security_scan_fb fields ai hcode hfail, optimize_code_fb fields ai hcode hfail⟩

/-- Witness for C3 at a concrete input: the text `"no json here"` has no
braces, so each non-chat task answers with its fallback envelope. -/
theorem c3_witness :
    analyze_code (some (.obj [("code", Json.str "x")])) (.ok "no json here")
      = ⟨200, analyzeFallback "no json here"⟩ ∧
    generate_tests (some (.obj [("code", Json.str "x")])) (.ok "no json here")
      = ⟨200, testsFallback "no json here"⟩ ∧
    security_scan (some (.obj [("code", Json.str "x")])) (.ok "no json here")
      = ⟨200, securityFallback "no json here"⟩ ∧
    optimize_code (some (.obj [("code", Json.str "x")])) (.ok "no json here")
      = ⟨200, optimizeFallback "no json here"⟩ :=
  c3_fallback_envelope [("code", Json.str "x")] "no json here" (by decide)
    (Or.inl (by rfl))

/-- Claim C4: for the chat task with a non-empty message, for every provider
completion text, the success response body is exactly
`{"response": <the completion text verbatim>, "timestamp": "now"}` — no
brace extraction, parsing, or truncation is applied. -/
theorem c4_chat_verbatim (fields : List (String × Json)) (ai : String)
    (hmsg : truthy (dictGet fields "message" (.str "")) = true) :
    ai_chat (some (.obj fields)) (.ok ai) =
      ⟨200, .obj [("response", .str ai), ("timestamp", .str "now")]⟩ :=
  ai_chat_ok fields ai hmsg

/-- Witness for C4 at a concrete input: the reply text is returned verbatim
even though it contains braces and invalid JSON. -/
theorem c4_witness :
    ai_chat (some (.obj [("message", Json.str "hi")])) (.ok "use \x7bbad json\x7d")
      = ⟨200, .obj [("response", .str "use \x7bbad json\x7d"),
          ("timestamp", .str "now")]⟩ :=
  c4_chat_verbatim [("message", Json.str "hi")] "use \x7bbad json\x7d" (by decide)

/-- Claim C5: for every task, if the request body's required field (`code`,
or `message` for chat) is absent (so `dict.get` returns the default `""`) or
empty, the handler returns HTTP 400 with body `{"error": "No code provided"}`
(`{"error": "No message provided"}` for chat).  The response is the same for
every provider outcome, which is how the embedding expresses that no
outbound call to the completion provider is made: the 400 answer is
computed before and independently of the provider. -/
theorem c5_missing_field_400 (fields : List (String × Json))
    (provider : Except String String) :
    (dictGet fields "code" (.str "") = .str "" →
      analyze_code (some (.obj fields)) provider = ⟨400, errObj "No code provided"⟩ ∧
      generate_tests (some (.obj fields)) provider = ⟨400, errObj "No code provided"⟩ ∧
      security_scan (some (.obj fields)) provider = ⟨400, errObj "No code provided"⟩ ∧
      optimize_code (some (.obj fields)) provider = ⟨400, errObj "No code provided"⟩) ∧
    (dictGet fields "message" (.str "") = .str "" →
      ai_chat (some (.obj fields)) provider = ⟨400, errObj "No message provided"⟩) :=
  ⟨fun h => ⟨analyze_code_400 fields provider h, generate_tests_400 fields provider h,
      security_scan_400 fields provider h, optimize_code_400 fields provider h⟩,
   fun h => ai_chat_400 fields provider h⟩

/-- Witness for C5 at a concrete input: an empty body object is missing both
required fields, and every task rejects it with the 400 error. -/
theorem c5_witness :
    analyze_code (some (.obj [])) (.ok "ignored") = ⟨400, errObj "No code provided"⟩ ∧
    generate_tests (some (.obj [])) (.ok "ignored") = ⟨400, errObj "No code provided"⟩ ∧
    security_scan (some (.obj [])) (.ok "ignored") = ⟨400, errObj "No code provided"⟩ ∧
    optimize_code (some (.obj [])) (.ok "ignored") = ⟨400, errObj "No code provided"⟩ ∧
    ai_chat (some (.obj [])) (.ok "ignored") = ⟨400, errObj "No message provided"⟩ :=
  ⟨((c5_missing_field_400 [] (.ok "ignored")).1 rfl).1,
   ((c5_missing_field_400 [] (.ok "ignored")).1 rfl).2.1,
   ((c5_missing_field_400 [] (.ok "ignored")).1 rfl).2.2.1,
   ((c5_missing_field_400 [] (.ok "ignored")).1 rfl).2.2.2,
   (c5_missing_field_400 [] (.ok "ignored")).2 rfl⟩

/-- Claim C6: for every task with a valid request body, if the provider call
raises an exception, the handler returns HTTP 500 whose body is exactly
`{"error": "<task action> failed: <exception text>"}` with the task's literal
action string (Analysis / Test generation / Security scan / Chat / Code
optimization); no other keys appear in that body. -/
theorem c6_provider_exception_500 (fields : List (String × Json)) (msg : String)
    (hcode : truthy (dictGet fields "code" (.str "")) = true)
    (hmsg : truthy (dictGet fields "message" (.str "")) = true) :
    analyze_code (some (.obj fields)) (.error msg)
      = ⟨500, errObj ("Analysis failed: " ++ msg)⟩ ∧
    generate_tests (some (.obj fields)) (.error msg)
      = ⟨500, errObj ("Test generation failed: " ++ msg)⟩ ∧
    security_scan (some (.obj fields)) (.error msg)
      = ⟨500, errObj ("Security scan failed: " ++ msg)⟩ ∧
    ai_chat (some (.obj fields)) (.error msg)
      = ⟨500, errObj ("Chat failed: " ++ msg)⟩ ∧
    optimize_code (some (.obj fields)) (.error msg)
      = ⟨500, errObj ("Code optimization failed: " ++ msg)⟩ :=
  ⟨analyze_code_err fields msg hcode, generate_tests_err fields msg hcode,
   security_scan_err fields msg hcode, ai_chat_err fields msg hmsg,
   optimize_code_err fields msg hcode⟩

/-- Witness for C6 at a concrete input: a raised exception with text
`"boom"` yields the five task-specific 500 bodies. -/
theorem c6_witness :
    analyze_code (some (.obj [("code", Json.str "x"), ("message", Json.str "hi")]))
      (.error "boom") = ⟨500, errObj ("Analysis failed: " ++ "boom")⟩ ∧
    generate_tests (some (.obj [("code", Json.str "x"), ("message", Json.str "hi")]))
      (.error "boom") = ⟨500, errObj ("Test generation failed: " ++ "boom")⟩ ∧
    security_scan (some (.obj [("code", Json.str "x"), ("message", Json.str "hi")]))
      (.error "boom") = ⟨500, errObj ("Security scan failed: " ++ "boom")⟩ ∧
    ai_chat (some (.obj [("code", Json.str "x"), ("message", Json.str "hi")]))
      (.error "boom") = ⟨500, errObj ("Chat failed: " ++ "boom")⟩ ∧
    optimize_code (some (.obj [("code", Json.str "x"), ("message", Json.str "hi")]))
      (.error "boom") = ⟨500, errObj ("Code optimization failed: " ++ "boom")⟩ :=
  c6_provider_exception_500 [("code", Json.str "x"), ("message", Json.str "hi")]
    "boom" (by decide) (by decide)

/-- Claim C8: for every completion text, the JSON-extraction step
(`re.search` of the dotall pattern brace–anything–brace, modelled by the
backtracking engine `reMatch` under `reSearchBraces`) selects exactly the
substring running from the leftmost opening brace to the rightmost closing
brace (`braceScanSpec`, the independent first-to-last-brace description),
and finds no substring exactly when no opening brace is followed later by a
closing brace. -/
theorem c8_extraction_span (s : String) :
    reSearchBraces s = braceScanSpec s ∧
    (reSearchBraces s = none ↔
      ¬ ∃ i j, i < j ∧ s.data.get? i = some '{' ∧ s.data.get? j = some '}') := by
  refine ⟨reSearchBraces_eq_spec s, ?_⟩
  rw [reSearchBraces_eq_spec s]
  unfold braceScanSpec
  rw [Option.map_eq_none']
  exact braceSpanList_none_iff s.data

/-- Witness for C8 at concrete inputs: on `"x{a}b}c"` the regex engine and
the first-to-last-brace description agree on the greedy span `"{a}b}"`. -/
theorem c8_witness :
    reSearchBraces "x\x7ba\x7db\x7dc" = braceScanSpec "x\x7ba\x7db\x7dc" ∧
    braceScanSpec "x\x7ba\x7db\x7dc" = some "\x7ba\x7db\x7d" :=
  ⟨(c8_extraction_span "x\x7ba\x7db\x7dc").1, rfl⟩

/-- Claim C9: for every task, when the request carries no parseable JSON
body (`request.get_json()` gave `None`, modelled by `data = none`), the
field lookup raises an `AttributeError` inside the catch-all handler, so the
route answers HTTP 500 with the task's "<action> failed: …" error — not the
HTTP 400 missing-field error.  This holds for every provider outcome since
the exception fires before any call. -/
theorem c9_no_json_body_500 (provider : Except String String) :
    analyze_code none provider
      = ⟨500, errObj ("Analysis failed: " ++ noneGetMsg)⟩ ∧
    generate_tests none provider
      = ⟨500, errObj ("Test generation failed: " ++ noneGetMsg)⟩ ∧
    security_scan none provider
      = ⟨500, errObj ("Security scan failed: " ++ noneGetMsg)⟩ ∧
    ai_chat none provider
      = ⟨500, errObj ("Chat failed: " ++ noneGetMsg)⟩ ∧
    optimize_code none provider
      = ⟨500, errObj ("Code optimization failed: " ++ noneGetMsg)⟩ :=
  ⟨rfl, rfl, rfl, rfl, rfl⟩

/-- Witness for C9 at a concrete provider outcome. -/
theorem c9_witness :
    (analyze_code none (.ok "text")).status = 500 ∧
    (ai_chat none (.ok "text")).status = 500 :=
  ⟨congrArg HttpResponse.status (c9_no_json_body_500 (.ok "text")).1,
   congrArg HttpResponse.status (c9_no_json_body_500 (.ok "text")).2.2.2.1⟩

/-- Claim C2: for every task except chat, with a valid request body, if the
provider's completion text is exactly a valid JSON object (it opens with the
leftmost brace, closes with the rightmost, and parses as a whole) of the
form `{"<expected_key>": …}`, the success response body equals that JSON
object verbatim. -/
theorem c2_verbatim_json_object (fields : List (String × Json)) (t : String) (j : Json)
    (hcode : truthy (dictGet fields "code" (.str "")) = true)
    (hhead : t.data.head? = some '{') (hlast : t.data.getLast? = some '}')
    (hparse : jsonLoads t = some j) :
    (hasKeyJ j "suggestions" = true →
      analyze_code (some (.obj fields)) (.ok t) = ⟨200, j⟩) ∧
    (hasKeyJ j "tests" = true →
      generate_tests (some (.obj fields)) (.ok t) = ⟨200, j⟩) ∧
    (hasKeyJ j "security_score" = true →
      security_scan (some (.obj fields)) (.ok t) = ⟨200, j⟩) ∧
    (hasKeyJ j "optimized_code" = true →
      optimize_code (some (.obj fields)) (.ok t) = ⟨200, j⟩) := by
  have hwhole : reSearchBraces t = some t := reSearchBraces_whole hhead hlast
  refine ⟨fun _ => ?_, fun _ => ?_, fun _ => ?_, fun _ => ?_⟩
  · rw [analyze_code_ok fields t hcode]
    simp only [hwhole, hparse]
  · rw [generate_tests_ok fields t hcode]
    simp only [hwhole, hparse]
  · rw [security_scan_ok fields t hcode]
    simp only [hwhole, hparse]
  · rw [optimize_code_ok fields t hcode]
    simp only [hwhole, hparse]

/-- Witness for C2 at concrete inputs: each task returns the parsed reply
object verbatim when the reply is exactly a JSON object with that task's
expected key. -/
theorem c2_witness :
    analyze_code (some (.obj [("code", Json.str "x")]))
      (.ok "\x7b\"suggestions\": []\x7d")
      = ⟨200, .obj [("suggestions", .arr [])]⟩ ∧
    generate_tests (some (.obj [("code", Json.str "x")]))
      (.ok "\x7b\"tests\": []\x7d")
      = ⟨200, .obj [("tests", .arr [])]⟩ ∧
    security_scan (some (.obj [("code", Json.str "x")]))
      (.ok "\x7b\"security_score\": 75\x7d")
      = ⟨200, .obj [("security_score", .num "75")]⟩ ∧
    optimize_code (some (.obj [("code", Json.str "x")]))
      (.ok "\x7b\"optimized_code\": \"y\"\x7d")
      = ⟨200, .obj [("optimized_code", .str "y")]⟩ :=
  ⟨(c2_verbatim_json_object [("code", Json.str "x")] "\x7b\"suggestions\": []\x7d"
      (.obj [("suggestions", .arr [])]) (by decide) rfl rfl rfl).1 rfl,
   (c2_verbatim_json_object [("code", Json.str "x")] "\x7b\"tests\": []\x7d"
      (.obj [("tests", .arr [])]) (by decide) rfl rfl rfl).2.1 rfl,
   (c2_verbatim_json_object [("code", Json.str "x")] "\x7b\"security_score\": 75\x7d"
      (.obj [("security_score", .num "75")]) (by decide) rfl rfl rfl).2.2.1 rfl,
   (c2_verbatim_json_object [("code", Json.str "x")] "\x7b\"optimized_code\": \"y\"\x7d"
      (.obj [("optimized_code", .str "y")]) (by decide) rfl rfl rfl).2.2.2 rfl⟩

/-- Counterexample to claim C1 as stated: for the analyze task, the provider
reply `{"foo": 1}` parses as JSON, so the handler returns it verbatim with
HTTP 200 — and the expected top-level key `suggestions` is absent from the
successful response.  Key presence is only guaranteed on the fallback path,
not for every successful response. -/
theorem c1_counterexample :
    (analyze_code (some (.obj [("code", Json.str "x")]))
        (.ok "\x7b\"foo\": 1\x7d")).status = 200 ∧
    hasKeyJ (analyze_code (some (.obj [("code", Json.str "x")]))
        (.ok "\x7b\"foo\": 1\x7d")).body "suggestions" = false :=
  ⟨rfl, rfl⟩

/-- Claim C1 (amended): for every task and provider completion text, a
successful (HTTP 200) response body is a well-formed JSON object; the task's
expected top-level key(s) are guaranteed present whenever the completion
text could not be parsed as JSON (the fallback path), and for chat always —
but when the completion parses, the body is exactly the model's object,
whose keys are not validated. -/
theorem c1_success_envelope_shape :
    (∀ (data : Option Json) (ai : String),
      (analyze_code data (.ok ai)).status = 200 →
      (analyze_code data (.ok ai)).body.isObj = true ∧
      (extractionFails ai →
        hasKeyJ (analyze_code data (.ok ai)).body "suggestions" = true)) ∧
    (∀ (data : Option Json) (ai : String),
      (generate_tests data (.ok ai)).status = 200 →
      (generate_tests data (.ok ai)).body.isObj = true ∧
      (extractionFails ai →
        hasKeyJ (generate_tests data (.ok ai)).body "tests" = true)) ∧
    (∀ (data : Option Json) (ai : String),
      (security_scan data (.ok ai)).status = 200 →
      (security_scan data (.ok ai)).body.isObj = true ∧
      (extractionFails ai →
        hasKeyJ (security_scan data (.ok ai)).body "security_score" = true ∧
        hasKeyJ (security_scan data (.ok ai)).body "issues" = true ∧
        hasKeyJ (security_scan data (.ok ai)).body "recommendations" = true)) ∧
    (∀ (data : Option Json) (ai : String),
      (optimize_code data (.ok ai)).status = 200 →
      (optimize_code data (.ok ai)).body.isObj = true ∧
      (extractionFails ai →
        hasKeyJ (optimize_code data (.ok ai)).body "optimized_code" = true ∧
        hasKeyJ (optimize_code data (.ok ai)).body "improvements" = true ∧
        hasKeyJ (optimize_code data (.ok ai)).body "performance_gain" = true)) ∧
    (∀ (data : Option Json) (provider : Except String String),
      (ai_chat data provider).status = 200 →
      (ai_chat data provider).body.isObj = true ∧
      hasKeyJ (ai_chat data provider).body "response" = true) := by
  refine ⟨?_, ?_, ?_, ?_, ?_⟩
  · intro data ai h200
    obtain ⟨fields, rfl, hcv⟩ := analyze_code_200_inputs h200
    by_cases hf : extractionFails ai
    · rw [analyze_code_fb fields ai hcv hf]
      exact ⟨rfl, fun _ => rfl⟩
    · cases hre : reSearchBraces ai with
      | none => exact absurd (Or.inl hre) hf
      | some m =>
        cases hjl : jsonLoads m with
        | none => exact absurd (Or.inr ⟨m, hre, hjl⟩) hf
        | some d =>
          simp only [analyze_code_ok fields ai hcv, hre, hjl]
          exact ⟨jsonLoads_open_isObj (reSearchBraces_open hre) hjl,
            fun hff => absurd hff hf⟩
  · intro data ai h200
    obtain ⟨fields, rfl, hcv⟩ := generate_tests_200_inputs h200
    by_cases hf : extractionFails ai
    · rw [generate_tests_fb fields ai hcv hf]
      exact ⟨rfl, fun _ => rfl⟩
    · cases hre : reSearchBraces ai with
      | none => exact absurd (Or.inl hre) hf
      | some m =>
        cases hjl : jsonLoads m with
        | none => exact absurd (Or.inr ⟨m, hre, hjl⟩) hf
        | some d =>
          simp only [generate_tests_ok fields ai hcv, hre, hjl]
          exact ⟨jsonLoads_open_isObj (reSearchBraces_open hre) hjl,
            fun hff => absurd hff hf⟩
  · intro data ai h200
    obtain ⟨fields, rfl, hcv⟩ := security_scan_200_inputs h200
    by_cases hf : extractionFails ai
    · rw [security_scan_fb fields ai hcv hf]
      exact ⟨rfl, fun _ => ⟨rfl, rfl, rfl⟩⟩
    · cases hre : reSearchBraces ai with
      | none => exact absurd (Or.inl hre) hf
      | some m =>
        cases hjl : jsonLoads m with
        | none => exact absurd (Or.inr ⟨m, hre, hjl⟩) hf
        | some d =>
          simp only [security_scan_ok fields ai hcv, hre, hjl]
          exact ⟨jsonLoads_open_isObj (reSearchBraces_open hre) hjl,
            fun hff => absurd hff hf⟩
  · intro data ai h200
    obtain ⟨fields, rfl, hcv⟩ := optimize_code_200_inputs h200
    by_cases hf : extractionFails ai
    · rw [optimize_code_fb fields ai hcv hf]
      exact ⟨rfl, fun _ => ⟨rfl, rfl, rfl⟩⟩
    · cases hre : reSearchBraces ai with
      | none => exact absurd (Or.inl hre) hf
      | some m =>
        cases hjl : jsonLoads m with
        | none => exact absurd (Or.inr ⟨m, hre, hjl⟩) hf
        | some d =>
          simp only [optimize_code_ok fields ai hcv, hre, hjl]
          exact ⟨jsonLoads_open_isObj (reSearchBraces_open hre) hjl,
            fun hff => absurd hff hf⟩
  · intro data provider h200
    obtain ⟨fields, ai, rfl, rfl, hcv⟩ := ai_chat_200_inputs h200
    rw [ai_chat_ok fields ai hcv]
    exact ⟨rfl, rfl⟩

/-- Witness for C1 (amended) at a concrete input: on an unparsable reply the
analyze task's 200 response is an object carrying `suggestions`, and a chat
200 response carries `response`. -/
theorem c1_witness :
    (analyze_code (some (.obj [("code", Json.str "x")])) (.ok "plain text")).body.isObj
      = true ∧
    hasKeyJ (analyze_code (some (.obj [("code", Json.str "x")]))
        (.ok "plain text")).body "suggestions" = true ∧
    hasKeyJ (ai_chat (some (.obj [("message", Json.str "hi")]))
        (.ok "plain text")).body "response" = true := by
  obtain ⟨h1, h2⟩ := c1_success_envelope_shape.1 (some (.obj [("code", Json.str "x")]))
    "plain text" rfl
  exact ⟨h1, h2 (Or.inl rfl),
    (c1_success_envelope_shape.2.2.2.2 (some (.obj [("message", Json.str "hi")]))
      (.ok "plain text") rfl).2⟩

/-- Counterexample to claim C7 as stated: the optimize task's fallback does
not truncate and does not append an ellipsis — it embeds the full raw
completion text.  At reply `"abc"` the fallback's `optimized_code` entry is
exactly `"abc"`, which differs from the 200- or 300-character truncation
suffixed with `"..."` that the claim asserts for every non-chat task. -/
theorem c7_counterexample :
    optimize_code (some (.obj [("code", Json.str "x")])) (.ok "abc")
      = ⟨200, optimizeFallback "abc"⟩ ∧
    lookupKey (optimizeFallback "abc") "optimized_code" = some (.str "abc") ∧
    ("abc" : String) ≠ pyTake 200 "abc" ++ "..." ∧
    ("abc" : String) ≠ pyTake 300 "abc" ++ "..." :=
  ⟨rfl, rfl, by decide, by decide⟩

/-- Claim C7 (amended): when the fallback path is taken, the analyze and
security-scan fallbacks embed the first 200 characters of the raw completion
text and the generate-tests fallback the first 300, each suffixed with the
ellipsis marker `"..."`; the optimize task's fallback instead embeds the
whole raw completion text as `optimized_code`, untruncated and without any
marker. -/
theorem c7_fallback_excerpts (fields : List (String × Json)) (ai : String)
    (hcode : truthy (dictGet fields "code" (.str "")) = true)
    (hfail : extractionFails ai) :
    ((lookupKey (analyze_code (some (.obj fields)) (.ok ai)).body
        "suggestions").bind firstElem).bind (fun e => lookupKey e "recommendation")
      = some (.str (pyTake 200 ai ++ "...")) ∧
    ((lookupKey (generate_tests (some (.obj fields)) (.ok ai)).body
        "tests").bind firstElem).bind (fun e => lookupKey e "code")
      = some (.str (pyTake 300 ai ++ "...")) ∧
    ((lookupKey (security_scan (some (.obj fields)) (.ok ai)).body
        "issues").bind firstElem).bind (fun e => lookupKey e "suggestion")
      = some (.str (pyTake 200 ai ++ "...")) ∧
    lookupKey (optimize_code (some (.obj fields)) (.ok ai)).body "optimized_code"
      = some (.str ai) := by
  rw [analyze_code_fb fields ai hcode hfail, generate_tests_fb fields ai hcode hfail,
    security_scan_fb fields ai hcode hfail, optimize_code_fb fields ai hcode hfail]
  exact ⟨rfl, rfl, rfl, rfl⟩

/-- Witness for C7 (amended) at a concrete input: with reply `"hello"` the
analyze fallback's recommendation is the truncation plus marker, and the
optimize fallback holds the raw text. -/
theorem c7_witness :
    ((lookupKey (analyze_code (some (.obj [("code", Json.str "x")]))
        (.ok "hello")).body "suggestions").bind firstElem).bind
        (fun e => lookupKey e "recommendation")
      = some (.str (pyTake 200 "hello" ++ "...")) ∧
    lookupKey (optimize_code (some (.obj [("code", Json.str "x")]))
        (.ok "hello")).body "optimized_code" = some (.str "hello") :=
  ⟨(c7_fallback_excerpts [("code", Json.str "x")] "hello" (by decide)
      (Or.inl rfl)).1,
   (c7_fallback_excerpts [("code", Json.str "x")] "hello" (by decide)
      (Or.inl rfl)).2.2.2⟩

/-- Claim C10: for the analyze, generate-tests, and security-scan tasks, the
fallback envelope's embedded excerpt always ends with the ellipsis marker
`"..."` (it is some prefix followed by `"..."`), and when the raw completion
text is shorter than the truncation limit (200, 300, 200 characters
respectively) the excerpt is the entire completion text followed by
`"..."`. -/
theorem c10_excerpt_ellipsis (fields : List (String × Json)) (ai : String)
    (hcode : truthy (dictGet fields "code" (.str "")) = true)
    (hfail : extractionFails ai) :
    (∃ s, ((lookupKey (analyze_code (some (.obj fields)) (.ok ai)).body
          "suggestions").bind firstElem).bind (fun e => lookupKey e "recommendation")
        = some (.str s) ∧ (∃ p, s = p ++ "...") ∧
        (ai.data.length ≤ 200 → s = ai ++ "...")) ∧
    (∃ s, ((lookupKey (generate_tests (some (.obj fields)) (.ok ai)).body
          "tests").bind firstElem).bind (fun e => lookupKey e "code")
        = some (.str s) ∧ (∃ p, s = p ++ "...") ∧
        (ai.data.length ≤ 300 → s = ai ++ "...")) ∧
    (∃ s, ((lookupKey (security_scan (some (.obj fields)) (.ok ai)).body
          "issues").bind firstElem).bind (fun e => lookupKey e "suggestion")
        = some (.str s) ∧ (∃ p, s = p ++ "...") ∧
        (ai.data.length ≤ 200 → s = ai ++ "...")) := by
  rw [analyze_code_fb fields ai hcode hfail, generate_tests_fb fields ai hcode hfail,
    security_scan_fb fields ai hcode hfail]
  refine ⟨⟨pyTake 200 ai ++ "...", rfl, ⟨pyTake 200 ai, rfl⟩, fun hlen => ?_⟩,
          ⟨pyTake 300 ai ++ "...", rfl, ⟨pyTake 300 ai, rfl⟩, fun hlen => ?_⟩,
          ⟨pyTake 200 ai ++ "...", rfl, ⟨pyTake 200 ai, rfl⟩, fun hlen => ?_⟩⟩
  · unfold pyTake
    rw [List.take_of_length_le hlen]
  · unfold pyTake
    rw [List.take_of_length_le hlen]
  · unfold pyTake
    rw [List.take_of_length_le hlen]

/-- Witness for C10 at a concrete input: with the two-character reply
`"hi"` the analyze fallback's excerpt is the whole reply plus `"..."`. -/
theorem c10_witness :
    ((lookupKey (analyze_code (some (.obj [("code", Json.str "x")]))
        (.ok "hi")).body "suggestions").bind firstElem).bind
        (fun e => lookupKey e "recommendation")
      = some (.str ("hi" ++ "...")) := by
  obtain ⟨s, hs, _, hshort⟩ := (c10_excerpt_ellipsis [("code", Json.str "x")] "hi"
    (by decide) (Or.inl rfl)).1
  rw [hs, hshort (by decide)]
